import Mathlib

/-!
# Verification of the social-logins-flask OAuth service

A shallow embedding of the Python code of the repository:

* `src/utils.py` — `get_provider`
* `src/config.py` — the pydantic `Config` class and the module-level
  `settings = Config()` guarded by `try/except ValidationError`
* `src/app/services/oauth.py` — `OAuthService`: client registrations,
  `initiate_social_login`, `get_token`, `handle_oauth_callback`,
  `fetch_user_data`
* `src/app/routes/auth.py` — `index`, `success`, `logout`

Modelling conventions:

* The Flask session is a record `SessionData` with one optional field per
  session key the code ever touches (`oauth_state`, `redirect_path`,
  `user_data`, `user`).  `None`/absent is `none`.
* Python exceptions become the `PyError` inductive; a function that both
  mutates the session and may raise returns `SessionData × Except PyError α`
  (session mutations made before a raise persist, as they do in Flask).
* JSON bodies are modelled as flat association lists `List (String × String)`;
  only the key structure matters for the properties proved here.
* Outbound HTTP traffic is modelled by passing the provider response
  (`HttpResponse`) as an explicit argument; `os.urandom(16)` is modelled by
  passing the 16 random bytes as an explicit argument.
* The authlib client method `authorize_access_token()` (third-party library, not
  part of this repository) is modelled by an explicit `Except` argument that
  stands for its outcome.
-/

namespace SocialLogins

/-- Enum `OAuthProvider` from `oauth.py`: the three supported providers. -/
inductive OAuthProvider
  | google
  | facebook
  | linkedin
deriving DecidableEq, Repr

/-- The `.value` of the Python `str`-enum member. -/
def OAuthProvider.value : OAuthProvider → String
  | .google => "google"
  | .facebook => "facebook"
  | .linkedin => "linkedin"

/-- JSON object, modelled as a flat association list of string key/value pairs. -/
abbrev Json := List (String × String)

/-- The exceptions the embedded code can raise.  `badRequest` and
`internalServerError` are the werkzeug `BadRequest` / `InternalServerError`;
`attributeError` models calling a method on `None`; `importError` models a
failing `from module import name`. -/
inductive PyError
  | badRequest (msg : String)
  | internalServerError (msg : String)
  | attributeError (msg : String)
  | importError (msg : String)
deriving DecidableEq, Repr

/-- Record `Config` from `config.py`: the validated settings object. -/
structure Config where
  DEBUG : Bool
  GOOGLE_CLIENT_ID : String
  GOOGLE_CLIENT_SECRET : String
  FACEBOOK_CLIENT_ID : String
  FACEBOOK_CLIENT_SECRET : String
  LINKEDIN_CLIENT_ID : String
  LINKEDIN_CLIENT_SECRET : String
deriving DecidableEq, Repr

/-- The six environment variables pydantic requires (`Field(...)`, no default). -/
def requiredKeys : List String :=
  ["GOOGLE_CLIENT_ID", "GOOGLE_CLIENT_SECRET",
   "FACEBOOK_CLIENT_ID", "FACEBOOK_CLIENT_SECRET",
   "LINKEDIN_CLIENT_ID", "LINKEDIN_CLIENT_SECRET"]

/-- Constructor call `Config()` in `config.py`: pydantic validation of the environment.
Every required key must be present, otherwise a `ValidationError` is raised
(modelled as `.error "ValidationError"`).  `DEBUG` defaults to `False`. -/
def loadConfig (env : String → Option String) : Except String Config :=
  if requiredKeys.all (fun k => (env k).isSome) then
    .ok { DEBUG := ((env "DEBUG").getD "False") == "True"
          GOOGLE_CLIENT_ID := (env "GOOGLE_CLIENT_ID").getD ""
          GOOGLE_CLIENT_SECRET := (env "GOOGLE_CLIENT_SECRET").getD ""
          FACEBOOK_CLIENT_ID := (env "FACEBOOK_CLIENT_ID").getD ""
          FACEBOOK_CLIENT_SECRET := (env "FACEBOOK_CLIENT_SECRET").getD ""
          LINKEDIN_CLIENT_ID := (env "LINKEDIN_CLIENT_ID").getD ""
          LINKEDIN_CLIENT_SECRET := (env "LINKEDIN_CLIENT_SECRET").getD "" }
  else
    .error "ValidationError"

/-- The module level of `config.py`:
`try: settings = Config() except ValidationError as e: print(...)`.
The `ValidationError` is caught and printed; it does not propagate, and the
name `settings` is left unbound (modelled as `none`).  The module import
itself completes normally in either case. -/
def settingsInit (env : String → Option String) : Option Config :=
  match loadConfig env with
  | .ok c => some c
  | .error _ => none

/-- Import statement `from src.config import settings` (executed when `oauth.py` is imported):
succeeds with the bound value, or raises `ImportError` when the name was
never bound because validation failed. -/
def importSettings (env : String → Option String) : Except PyError Config :=
  match settingsInit env with
  | some c => .ok c
  | none => .error (.importError "cannot import name settings from src.config")

/-- The Flask session, restricted to the keys this code base ever touches. -/
structure SessionData where
  oauth_state : Option String
  redirect_path : Option String
  user_data : Option Json
  user : Option Json
deriving DecidableEq, Repr

/-- A brand-new (empty) browser session. -/
def emptySession : SessionData :=
  { oauth_state := none, redirect_path := none, user_data := none, user := none }

/-- An HTTP response from a provider endpoint: status code, raw text body and
parsed JSON body. -/
structure HttpResponse where
  status_code : Nat
  text : String
  json : Json
deriving DecidableEq, Repr

/-- The static registration data of one OAuth client, as passed to
`oauth.register` in `_create_google_client` / `_create_facebook_client` /
`_create_linkedin_client`.  The Google authorize/token URLs are resolved at
runtime from its OpenID metadata document, hence `none` here. -/
structure ClientRegistration where
  name : String
  client_id : String
  client_secret : String
  authorize_url : Option String
  access_token_url : Option String
  scope : String
deriving DecidableEq, Repr

/-- The `clients` dict built by `OAuthService.__init__`, keyed by provider. -/
def clients (cfg : Config) : OAuthProvider → ClientRegistration
  | .google =>
    { name := "google"
      client_id := cfg.GOOGLE_CLIENT_ID
      client_secret := cfg.GOOGLE_CLIENT_SECRET
      authorize_url := none
      access_token_url := none
      scope := "openid email profile" }
  | .facebook =>
    { name := "facebook"
      client_id := cfg.FACEBOOK_CLIENT_ID
      client_secret := cfg.FACEBOOK_CLIENT_SECRET
      authorize_url := some "https://www.facebook.com/dialog/oauth"
      access_token_url := some "https://graph.facebook.com/oauth/access_token"
      scope := "email public_profile" }
  | .linkedin =>
    { name := "linkedin"
      client_id := cfg.LINKEDIN_CLIENT_ID
      client_secret := cfg.LINKEDIN_CLIENT_SECRET
      authorize_url := some "https://www.linkedin.com/oauth/v2/authorization"
      access_token_url := some "https://www.linkedin.com/oauth/v2/accessToken"
      scope := "openid profile email" }

/-- Lookup `self.clients.get(provider)`: a Python `dict.get`, which returns `None`
for a key that is not one of the three enum members (e.g. `None` itself). -/
def clientsGet (cfg : Config) : Option OAuthProvider → Option ClientRegistration
  | none => none
  | some p => some (clients cfg p)

/-- Function `get_provider` from `src/utils.py`: maps a provider-name string to the
enum member, and silently returns `None` for anything unsupported. -/
def get_provider (provider_name : String) : Option OAuthProvider :=
  if provider_name = OAuthProvider.value .google then some .google
  else if provider_name = OAuthProvider.value .linkedin then some .linkedin
  else if provider_name = OAuthProvider.value .facebook then some .facebook
  else none

/-- The lowercase hex digit character for a value `< 16`: code point 48 is
the digit zero, code point 97 is the letter a. -/
def hexDigit (n : Nat) : Char :=
  if n < 10 then Char.ofNat (48 + n) else Char.ofNat (87 + n)

/-- The two hex characters of one byte, high digit first (Python `bytes.hex`). -/
def byteHexChars (b : Nat) : List Char := [hexDigit (b / 16), hexDigit (b % 16)]

/-- Hex characters of a byte string. -/
def bytesHexChars : List Nat → List Char
  | [] => []
  | b :: bs => byteHexChars b ++ bytesHexChars bs

/-- Python `bytes.hex()`: a byte string rendered as a lowercase hex string. -/
def bytesHex (bs : List Nat) : String := String.mk (bytesHexChars bs)

/-- Value of a hex digit character (inverse of `hexDigit` on digits). -/
def hexVal (c : Char) : Nat :=
  if 97 ≤ c.toNat then c.toNat - 87 else c.toNat - 48

/-- Decode a hex character string back to bytes, two characters per byte. -/
def bytesHexDecode : List Char → List Nat
  | c1 :: c2 :: rest => (hexVal c1 * 16 + hexVal c2) :: bytesHexDecode rest
  | _ => []

/-- The call `url_for("auth.auth_callback", provider=..., _external=True, _scheme=...)`:
the absolute callback URL for a provider.  The scheme is `http` when
`settings.DEBUG` and `https` otherwise; `host` is the request host. -/
def url_for_auth_callback (cfg : Config) (host : String) (p : OAuthProvider) : String :=
  (if cfg.DEBUG then "http" else "https") ++ "://" ++ host ++ "/auth/" ++ p.value ++ "/callback"

/-- The redirect built by `oauth_client.authorize_redirect(redirect_uri,
state=state)`: the arguments the repository code passes to the library.
(The library additionally appends `client_id`, `scope` and
`response_type=code` from the registration.) -/
structure AuthorizeRedirect where
  redirect_uri : String
  state : String
deriving DecidableEq, Repr

/-- Method `OAuthService.initiate_social_login` from `oauth.py`.

`rnd` is the byte string returned by `os.urandom(16)`.  Raises `BadRequest`
when `clients.get(provider)` finds no client (in particular for the `None`
that `get_provider` yields on an unsupported name); otherwise writes
`redirect_path := redirect_uri` and `oauth_state := state` into the session
and returns the authorize redirect. -/
def initiate_social_login (cfg : Config) (host : String) (rnd : List Nat)
    (sess : SessionData) (provider : Option OAuthProvider) :
    SessionData × Except PyError AuthorizeRedirect :=
  match clientsGet cfg provider with
  | none => (sess, .error (.badRequest "Unsupported provider: None"))
  | some _ =>
    match provider with
    | none => (sess, .error (.badRequest "Unsupported provider: None"))
    | some p =>
      let redirect_uri := url_for_auth_callback cfg host p
      let state := bytesHex rnd
      ({ sess with redirect_path := some redirect_uri, oauth_state := some state },
       .ok { redirect_uri := redirect_uri, state := state })

/-- Method `OAuthService.get_token` from `oauth.py`.

For LinkedIn the code posts to the token endpoint itself with httpx;
`tokenResponse` is the response of that endpoint, and a non-200 status raises
`BadRequest` carrying the raw response text.  For every other value
(including `None`) the code calls `oauth_client.authorize_access_token()`:
for Google/Facebook this is the external authlib client, modelled by the
`authlibResult` argument; for `None` the attribute access on `None` raises
`AttributeError`. -/
def get_token (provider : Option OAuthProvider) (tokenResponse : HttpResponse)
    (authlibResult : Except PyError Json) : Except PyError Json :=
  match provider with
  | some .linkedin =>
    if tokenResponse.status_code ≠ 200 then
      .error (.badRequest ("Failed to fetch access token: " ++ tokenResponse.text))
    else
      .ok tokenResponse.json
  | some _ => authlibResult
  | none => .error (.attributeError "NoneType object has no attribute authorize_access_token")

/-- Method `OAuthService.fetch_user_data` from `oauth.py`.

`userinfoResponse` is the response of the provider user-info endpoint.  On HTTP
200 the code returns `response.json()` verbatim — the provider JSON body,
with no field renaming — and on any other status, or on any exception inside
the `try` (e.g. the `AttributeError` from a `None` client), it returns
`None`.  The `token` argument is forwarded to the HTTP client and does not
otherwise affect the result. -/
def fetch_user_data (provider : Option OAuthProvider) (token : Json)
    (userinfoResponse : HttpResponse) : Option Json :=
  match provider with
  | none => none
  | some _ =>
    if userinfoResponse.status_code = 200 then some userinfoResponse.json else none

/-- Method `OAuthService.handle_oauth_callback` from `oauth.py`.

Gate 1 (lines 165-171): reads `oauth_state` and the `state` query parameter;
`if not stored_state or stored_state != received_state` raises
`BadRequest "Invalid state parameter."` — the stored value is falsy when it
is `None` or `""`, and the comparison fails when the received value differs.
`session.pop("oauth_state", None)` runs only after this check passes, so every
later branch carries `oauth_state := none`.  Gate 2: `get_token`; its
exception propagates with the session as mutated so far.  Gate 3:
`fetch_user_data`; a falsy result (`None` or `{}`) raises
`InternalServerError`.  On full success `user_data` is written, then
`redirect_path` is popped (default `url_for("auth.success")`, passed here as
`successUrl`) and returned as the redirect target.  The returned session is
the session as left behind, also when an exception is raised. -/
def handle_oauth_callback (provider : Option OAuthProvider) (sess : SessionData)
    (received_state : Option String) (tokenResponse : HttpResponse)
    (authlibResult : Except PyError Json) (userinfoResponse : HttpResponse)
    (successUrl : String) : SessionData × Except PyError String :=
  if sess.oauth_state = none ∨ sess.oauth_state = some "" ∨
      received_state ≠ sess.oauth_state then
    (sess, .error (.badRequest "Invalid state parameter."))
  else
    match get_token provider tokenResponse authlibResult with
    | .error e => ({ sess with oauth_state := none }, .error e)
    | .ok token =>
      match fetch_user_data provider token userinfoResponse with
      | none =>
        ({ sess with oauth_state := none },
         .error (.internalServerError "Failed to fetch user data."))
      | some user_data =>
        if user_data = [] then
          ({ sess with oauth_state := none },
           .error (.internalServerError "Failed to fetch user data."))
        else
          ({ sess with
              oauth_state := none
              user_data := some user_data
              redirect_path := none },
           .ok (sess.redirect_path.getD successUrl))

/-- Route `logout` from `auth.py`: `session.clear()` empties the session. -/
def logout (_sess : SessionData) : SessionData := emptySession

/-- Route `index` from `auth.py`: renders with `user = session.get("user")`. -/
def index (sess : SessionData) : Option Json := sess.user

/-- Route `success` from `auth.py`: reads `session.get("user_data")` (the
profile) and renders it, redirecting to the failure page when it is absent. -/
def success_page (sess : SessionData) : Option Json := sess.user_data

/-- The session states reachable through the operations of this code base,
starting from a fresh session. -/
inductive Reachable : SessionData → Prop
  | init : Reachable emptySession
  | start (cfg : Config) (host : String) (rnd : List Nat)
      (provider : Option OAuthProvider) (s : SessionData) :
      Reachable s → Reachable (initiate_social_login cfg host rnd s provider).1
  | callback (provider : Option OAuthProvider) (received_state : Option String)
      (tokenResponse : HttpResponse) (authlibResult : Except PyError Json)
      (userinfoResponse : HttpResponse) (successUrl : String) (s : SessionData) :
      Reachable s →
      Reachable (handle_oauth_callback provider s received_state tokenResponse
        authlibResult userinfoResponse successUrl).1
  | logout_step (s : SessionData) : Reachable s → Reachable (logout s)

/-! ### Concrete demonstration inputs -/

/-- A concrete configuration (as it would load in a development environment). -/
def cfgDemo : Config :=
  { DEBUG := true
    GOOGLE_CLIENT_ID := "gid", GOOGLE_CLIENT_SECRET := "gsec"
    FACEBOOK_CLIENT_ID := "fid", FACEBOOK_CLIENT_SECRET := "fsec"
    LINKEDIN_CLIENT_ID := "lid", LINKEDIN_CLIENT_SECRET := "lsec" }

/-- Sixteen concrete bytes standing for one `os.urandom(16)` draw. -/
def rndDemo : List Nat := [0, 1, 2, 3, 4, 5, 6, 7, 8, 9, 10, 11, 12, 13, 14, 15]

/-- A second, different concrete `os.urandom(16)` draw. -/
def rndDemo2 : List Nat := [255, 1, 2, 3, 4, 5, 6, 7, 8, 9, 10, 11, 12, 13, 14, 15]

/-- A successful token-endpoint response. -/
def tokenOk : HttpResponse :=
  { status_code := 200, text := "", json := [("access_token", "tok")] }

/-- A successful user-info endpoint response (Google `oauth2/v1/userinfo` shape). -/
def userinfoOk : HttpResponse :=
  { status_code := 200, text := ""
    json := [("id", "101"), ("name", "Ada"), ("email", "ada@example.com")] }

/-! ### Lemmas about the hex rendering of the nonce -/

/-- Function `hexVal` inverts `hexDigit` on digit values. -/
lemma hexVal_hexDigit : ∀ d : Nat, d < 16 → hexVal (hexDigit d) = d := by
  decide

/-- One byte round-trips through its two hex characters. -/
lemma byteHex_roundtrip (b : Nat) (hb : b < 256) :
    hexVal (hexDigit (b / 16)) * 16 + hexVal (hexDigit (b % 16)) = b := by
  have hdiv : b / 16 < 16 := by omega
  have hmod : b % 16 < 16 := by omega
  rw [hexVal_hexDigit _ hdiv, hexVal_hexDigit _ hmod]
  omega

/-- A byte string round-trips through its hex character rendering. -/
lemma bytesHexDecode_bytesHexChars :
    ∀ bs : List Nat, (∀ b ∈ bs, b < 256) →
      bytesHexDecode (bytesHexChars bs) = bs := by
  intro bs
  induction bs with
  | nil => intro _; rfl
  | cons b bs ih =>
    intro hvalid
    have hb : b < 256 := hvalid b (List.mem_cons_self b bs)
    have hrest : ∀ x ∈ bs, x < 256 := fun x hx => hvalid x (List.mem_cons_of_mem b hx)
    simp only [bytesHexChars, byteHexChars, List.cons_append, List.nil_append,
      List.append_nil, List.append, bytesHexDecode, ih hrest, byteHex_roundtrip b hb]

/-- The hex rendering is injective on byte strings. -/
lemma bytesHex_injective (bs1 bs2 : List Nat)
    (h1 : ∀ b ∈ bs1, b < 256) (h2 : ∀ b ∈ bs2, b < 256)
    (heq : bytesHex bs1 = bytesHex bs2) : bs1 = bs2 := by
  have hchars : bytesHexChars bs1 = bytesHexChars bs2 := by
    have := congrArg String.data heq
    simpa [bytesHex] using this
  calc bs1 = bytesHexDecode (bytesHexChars bs1) := (bytesHexDecode_bytesHexChars bs1 h1).symm
    _ = bytesHexDecode (bytesHexChars bs2) := by rw [hchars]
    _ = bs2 := bytesHexDecode_bytesHexChars bs2 h2

/-- A nonempty byte string renders to a nonempty hex string. -/
lemma bytesHex_ne_empty (bs : List Nat) (h : bs ≠ []) : bytesHex bs ≠ "" := by
  intro hcontra
  have hdata : bytesHexChars bs = [] := by
    have := congrArg String.data hcontra
    simpa [bytesHex] using this
  cases bs with
  | nil => exact h rfl
  | cons b rest => simp [bytesHexChars, byteHexChars] at hdata

/-! ### Helper lemmas about the callback state machine -/

/-- On a fully successful callback (valid non-empty matching state, token
exchange succeeds, user-info endpoint answers 200 with a nonempty body), the
profile is written verbatim to `user_data`, `oauth_state` is popped, and
`redirect_path` is popped and returned (defaulting to `successUrl`). -/
lemma handle_oauth_callback_success (p : OAuthProvider) (sess : SessionData)
    (s : String) (received : Option String) (tr : HttpResponse)
    (al : Except PyError Json) (ur : HttpResponse) (su : String) (tok : Json)
    (hstored : sess.oauth_state = some s) (hs : s ≠ "") (hrecv : received = some s)
    (htok : get_token (some p) tr al = .ok tok)
    (hstatus : ur.status_code = 200) (hjson : ur.json ≠ []) :
    handle_oauth_callback (some p) sess received tr al ur su
      = ({ sess with
            oauth_state := none
            user_data := some ur.json
            redirect_path := none },
         .ok (sess.redirect_path.getD su)) := by
  have hcond : ¬(sess.oauth_state = none ∨ sess.oauth_state = some "" ∨
      received ≠ sess.oauth_state) := by
    rw [hstored, hrecv]
    simp [hs]
  unfold handle_oauth_callback
  rw [if_neg hcond, htok]
  simp [fetch_user_data, hstatus, hjson]

/-- Operation `initiate_social_login` never touches the `user` session key. -/
lemma initiate_social_login_user (cfg : Config) (host : String) (rnd : List Nat)
    (sess : SessionData) (provider : Option OAuthProvider) :
    ((initiate_social_login cfg host rnd sess provider).1).user = sess.user := by
  cases provider with
  | none => rfl
  | some p => rfl

/-- Operation `handle_oauth_callback` never touches the `user` session key. -/
lemma handle_oauth_callback_user (provider : Option OAuthProvider)
    (sess : SessionData) (received : Option String) (tr : HttpResponse)
    (al : Except PyError Json) (ur : HttpResponse) (su : String) :
    ((handle_oauth_callback provider sess received tr al ur su).1).user = sess.user := by
  unfold handle_oauth_callback
  repeat' split
  all_goals rfl

/-! ### Claims -/

/-- Claim C1, counterexample. The claim says the stored nonce is removed from
the session on both the validation-success and the validation-failure branch.
On the failure branch it is not: with `oauth_state = "aa"` stored and a
mismatching received state `"bb"`, `handle_oauth_callback` raises before
reaching `session.pop("oauth_state", None)` (oauth.py line 171 runs only
after the check at lines 167-169 passes), so the session still holds
`oauth_state = "aa"` afterwards. -/
theorem c1_counterexample :
    ((handle_oauth_callback (some .google)
        { emptySession with oauth_state := some "aa" } (some "bb")
        tokenOk (.ok [("access_token", "tok")]) userinfoOk "/success").1).oauth_state
      = some "aa" := by
  decide

/-- Claim C1, amended. When the stored `oauth_state` is present, non-empty and
equal to the received state (validation success), the nonce is removed from
the session before the callback returns or fails, whatever the outcome of the
token exchange and profile fetch; on the validation-failure branch the nonce
is left in the session. -/
theorem c1_amended_nonce_popped_on_validation_success
    (provider : Option OAuthProvider) (sess : SessionData) (s : String)
    (received : Option String) (tr : HttpResponse) (al : Except PyError Json)
    (ur : HttpResponse) (su : String)
    (hstored : sess.oauth_state = some s) (hs : s ≠ "") (hrecv : received = some s) :
    ((handle_oauth_callback provider sess received tr al ur su).1).oauth_state = none := by
  have hcond : ¬(sess.oauth_state = none ∨ sess.oauth_state = some "" ∨
      received ≠ sess.oauth_state) := by
    rw [hstored, hrecv]
    simp [hs]
  unfold handle_oauth_callback
  rw [if_neg hcond]
  repeat' split
  all_goals rfl

/-- Claim C1, witness. Concrete validation-success run (the token exchange then
fails): the nonce is gone afterwards. -/
theorem c1_witness :
    ((handle_oauth_callback (some .google)
        { emptySession with oauth_state := some "aa" } (some "aa")
        tokenOk (.error (.badRequest "boom")) userinfoOk "/success").1).oauth_state
      = none :=
  c1_amended_nonce_popped_on_validation_success (some .google)
    { emptySession with oauth_state := some "aa" } "aa" (some "aa")
    tokenOk (.error (.badRequest "boom")) userinfoOk "/success"
    rfl (by decide) rfl

/-- Claim C2. Whenever the stored `oauth_state` is missing or differs from the
received `state` query parameter, the callback fails with the invalid-state
`BadRequest` (named `InvalidStateError` in the spec) and the session is untouched.
The right-hand side does not depend on `tr`, `al` or `ur`: the token endpoint
is never consulted, so no outbound token request is made and no token is
obtained. -/
theorem c2_invalid_state_blocks_token_exchange
    (provider : Option OAuthProvider) (sess : SessionData)
    (received : Option String) (tr : HttpResponse) (al : Except PyError Json)
    (ur : HttpResponse) (su : String)
    (h : sess.oauth_state = none ∨ sess.oauth_state ≠ received) :
    handle_oauth_callback provider sess received tr al ur su
      = (sess, .error (.badRequest "Invalid state parameter.")) := by
  have hcond : sess.oauth_state = none ∨ sess.oauth_state = some "" ∨
      received ≠ sess.oauth_state := by
    rcases h with h | h
    · exact Or.inl h
    · exact Or.inr (Or.inr (Ne.symm h))
  unfold handle_oauth_callback
  rw [if_pos hcond]

/-- Claim C2, witness. Concrete run with no stored nonce: invalid-state
failure, session unchanged, result independent of the mocked endpoints. -/
theorem c2_witness :
    handle_oauth_callback (some .google) emptySession (some "xyz")
        tokenOk (.ok [("access_token", "tok")]) userinfoOk "/success"
      = (emptySession, .error (.badRequest "Invalid state parameter.")) :=
  c2_invalid_state_blocks_token_exchange (some .google) emptySession (some "xyz")
    tokenOk (.ok [("access_token", "tok")]) userinfoOk "/success" (Or.inl rfl)

/-- Environment with only the Google client id present: one credential of the
pair is missing. -/
def envPartial : String → Option String :=
  fun k => if k = "GOOGLE_CLIENT_ID" then some "gid" else none

/-- An entirely empty environment: every credential missing. -/
def envEmpty : String → Option String := fun _ => none

/-- Claim C3, counterexample. With `GOOGLE_CLIENT_SECRET` (among others)
missing, pydantic validation fails — but the module-level
`try/except ValidationError` in `config.py` catches the error and only
prints it: `settingsInit` completes normally with `settings` unbound, so no
`ConfigurationError` is raised at startup.  The process only dies later with
an `ImportError` when `oauth.py` runs `from src.config import settings`. -/
theorem c3_counterexample :
    loadConfig envPartial = .error "ValidationError" ∧
    settingsInit envPartial = none ∧
    importSettings envPartial
      = .error (.importError "cannot import name settings from src.config") := by
  refine ⟨rfl, rfl, rfl⟩

/-- Claim C3, amended. For every environment missing at least one of the six
required credentials, pydantic validation fails with a `ValidationError`, but
`config.py` catches it and only prints; `settings` is left unbound, so
startup fails with an `ImportError` at the first `from src.config import
settings` — not with a `ConfigurationError`. -/
theorem c3_amended_validation_error_swallowed (env : String → Option String)
    (k : String) (hk : k ∈ requiredKeys) (hmissing : env k = none) :
    loadConfig env = .error "ValidationError" ∧
    settingsInit env = none ∧
    importSettings env
      = .error (.importError "cannot import name settings from src.config") := by
  have hall : requiredKeys.all (fun k => (env k).isSome) = false := by
    rw [List.all_eq_false]
    exact ⟨k, hk, by simp [hmissing]⟩
  have h1 : loadConfig env = .error "ValidationError" := by
    unfold loadConfig
    rw [hall]
    rfl
  have h2 : settingsInit env = none := by
    unfold settingsInit
    rw [h1]
  have h3 : importSettings env
      = .error (.importError "cannot import name settings from src.config") := by
    unfold importSettings
    rw [h2]
  exact ⟨h1, h2, h3⟩

/-- Claim C3, witness. The empty environment instantiates the amended claim. -/
theorem c3_witness :
    loadConfig envEmpty = .error "ValidationError" ∧
    settingsInit envEmpty = none ∧
    importSettings envEmpty
      = .error (.importError "cannot import name settings from src.config") :=
  c3_amended_validation_error_swallowed envEmpty "GOOGLE_CLIENT_ID" (by decide) rfl

/-- A LinkedIn OpenID Connect `userinfo` response: the subject field is named
`sub`, not `id`, and a `locale` field is present. -/
def linkedinUserinfo : HttpResponse :=
  { status_code := 200
    text := ""
    json := [("sub", "u-123"), ("name", "Ada Lovelace"),
             ("email", "ada@example.com"), ("locale", "en-US")] }

/-- Claim C4, counterexample. The claim says the value written to `user_data`
is a normalized profile whose provider-specific field names are mapped to the
common set `id`/`name`/`email`/`picture`.  `fetch_user_data` performs no such
mapping: for a LinkedIn-shaped body it returns the JSON verbatim, keeping the
provider-specific keys `sub` and `locale`, which are not in the common set
(`response.json()` is returned unchanged at oauth.py line 210). -/
theorem c4_counterexample :
    fetch_user_data (some .linkedin) [("access_token", "tok")] linkedinUserinfo
      = some linkedinUserinfo.json ∧
    ¬(∀ kv ∈ linkedinUserinfo.json, kv.1 ∈ ["id", "name", "email", "picture"]) := by
  refine ⟨rfl, by decide⟩

/-- Claim C4, amended. On every successful (HTTP 200) profile fetch for a
supported provider, `fetch_user_data` returns the provider JSON body
verbatim: no provider-specific field name is renamed to the common set, and
nothing is synthesized — the result is exactly the provider response
(which `handle_oauth_callback` then writes to `user_data` unchanged). -/
theorem c4_amended_profile_returned_verbatim (p : OAuthProvider) (token : Json)
    (resp : HttpResponse) (h : resp.status_code = 200) :
    fetch_user_data (some p) token resp = some resp.json := by
  unfold fetch_user_data
  rw [if_pos h]

/-- Claim C4, witness. A concrete Google-shaped 200 response comes back
verbatim. -/
theorem c4_witness :
    fetch_user_data (some .google) [("access_token", "tok")] userinfoOk
      = some userinfoOk.json :=
  c4_amended_profile_returned_verbatim .google [("access_token", "tok")] userinfoOk rfl

/-- Claim C5, counterexample. The claim says the registry lookup for an
unsupported id fails with `UnknownProviderError` and that `callback` fails
with it too.  In fact `get_provider` silently returns `None`
(utils.py line 11), and the callback invoked with that `None` fails at state
validation with the invalid-state `BadRequest`, not with any
unsupported-provider error. -/
theorem c5_counterexample :
    get_provider "unknown" = none ∧
    (handle_oauth_callback (get_provider "unknown") emptySession (some "xyz")
        tokenOk (.ok [("access_token", "tok")]) userinfoOk "/success").2
      = .error (.badRequest "Invalid state parameter.") := by
  refine ⟨rfl, rfl⟩

/-- Claim C5, amended. For every provider id outside google/linkedin/facebook,
`get_provider` silently returns `None` (no error).  `start` invoked with that
`None` fails with the unsupported-provider `BadRequest`, but `callback`
invoked with it does not: with no stored `oauth_state` it fails with the
invalid-state `BadRequest`, never with an unsupported-provider error. -/
theorem c5_amended_silent_none_provider (s : String) (cfg : Config)
    (host : String) (rnd : List Nat) (sess : SessionData)
    (received : Option String) (tr : HttpResponse) (al : Except PyError Json)
    (ur : HttpResponse) (su : String)
    (hg : s ≠ "google") (hl : s ≠ "linkedin") (hf : s ≠ "facebook")
    (hns : sess.oauth_state = none) :
    get_provider s = none ∧
    initiate_social_login cfg host rnd sess (get_provider s)
      = (sess, .error (.badRequest "Unsupported provider: None")) ∧
    (handle_oauth_callback (get_provider s) sess received tr al ur su).2
      = .error (.badRequest "Invalid state parameter.") := by
  have hgp : get_provider s = none := by
    simp [get_provider, OAuthProvider.value, hg, hl, hf]
  refine ⟨hgp, ?_, ?_⟩
  · rw [hgp]
    rfl
  · unfold handle_oauth_callback
    rw [if_pos (Or.inl hns)]

/-- Claim C5, witness. The id `"unknown"` instantiates the amended claim. -/
theorem c5_witness :
    get_provider "unknown" = none ∧
    initiate_social_login cfgDemo "localhost:5000" rndDemo emptySession
        (get_provider "unknown")
      = (emptySession, .error (.badRequest "Unsupported provider: None")) ∧
    (handle_oauth_callback (get_provider "unknown") emptySession (some "abc")
        tokenOk (.ok [("access_token", "tok")]) userinfoOk "/success").2
      = .error (.badRequest "Invalid state parameter.") :=
  c5_amended_silent_none_provider "unknown" cfgDemo "localhost:5000" rndDemo
    emptySession (some "abc") tokenOk (.ok [("access_token", "tok")]) userinfoOk
    "/success" (by decide) (by decide) (by decide) rfl

/-- A failing token-endpoint response (HTTP 401). -/
def token401 : HttpResponse :=
  { status_code := 401, text := "unauthorized", json := [] }

/-- Claim C6. When state validation passes but the token endpoint answers
non-200, the callback fails with the token-exchange `BadRequest` carrying the
raw provider response text, and the session field `user_data` is unchanged
(only `oauth_state` has been popped).  Stated for LinkedIn, the one provider
whose token exchange is implemented in this repository (oauth.py lines
142-150); for Google/Facebook the exchange is delegated to the external
authlib client. -/
theorem c6_token_failure_user_data_unset (sess : SessionData) (s : String)
    (received : Option String) (tr : HttpResponse) (al : Except PyError Json)
    (ur : HttpResponse) (su : String)
    (hstored : sess.oauth_state = some s) (hs : s ≠ "") (hrecv : received = some s)
    (hstatus : tr.status_code ≠ 200) :
    handle_oauth_callback (some .linkedin) sess received tr al ur su
      = ({ sess with oauth_state := none },
         .error (.badRequest ("Failed to fetch access token: " ++ tr.text))) := by
  have hcond : ¬(sess.oauth_state = none ∨ sess.oauth_state = some "" ∨
      received ≠ sess.oauth_state) := by
    rw [hstored, hrecv]
    simp [hs]
  have htok : get_token (some .linkedin) tr al
      = .error (.badRequest ("Failed to fetch access token: " ++ tr.text)) := by
    simp only [get_token]
    rw [if_pos hstatus]
  unfold handle_oauth_callback
  rw [if_neg hcond, htok]

/-- Claim C6, witness. A concrete 401 token response: token-exchange failure
with the raw text, `user_data` still absent. -/
theorem c6_witness :
    handle_oauth_callback (some .linkedin)
        { emptySession with oauth_state := some "aa" } (some "aa")
        token401 (.ok [("access_token", "tok")]) userinfoOk "/success"
      = (emptySession,
         .error (.badRequest "Failed to fetch access token: unauthorized")) :=
  c6_token_failure_user_data_unset { emptySession with oauth_state := some "aa" }
    "aa" (some "aa") token401 (.ok [("access_token", "tok")]) userinfoOk "/success"
    rfl (by decide) rfl (by decide)

/-- The session after `start` for Google in the demo environment. -/
def sessAfterStart : SessionData :=
  (initiate_social_login cfgDemo "localhost:5000" rndDemo emptySession (some .google)).1

/-- Claim C7, counterexample. The claim says `start` stores the intended
post-login destination in `redirect_path`.  It stores the OAuth callback URL
instead: oauth.py line 103 assigns `session["redirect_path"] = redirect_uri`,
the very URL sent to the provider as `redirect_uri`.  Consequently, on a
fully successful callback the popped redirect target is the callback
endpoint itself (`/auth/google/callback`), not the fixed success destination
or any destination chosen before login. -/
theorem c7_counterexample :
    sessAfterStart.redirect_path
      = some "http://localhost:5000/auth/google/callback" ∧
    (initiate_social_login cfgDemo "localhost:5000" rndDemo emptySession
        (some .google)).2
      = .ok { redirect_uri := "http://localhost:5000/auth/google/callback"
              state := bytesHex rndDemo } ∧
    (handle_oauth_callback (some .google) sessAfterStart (some (bytesHex rndDemo))
        tokenOk (.ok [("access_token", "tok")]) userinfoOk "/success").2
      = .ok "http://localhost:5000/auth/google/callback" ∧
    "http://localhost:5000/auth/google/callback" ≠ "/success" := by
  refine ⟨rfl, rfl, rfl, by decide⟩

/-- Claim C7, amended. `start` stores the OAuth callback URL (the same
`redirect_uri` passed to the provider) in `redirect_path`, not a separate
post-login destination; on a fully successful callback the profile is
written to `user_data` and `redirect_path` is popped and used as the
service-level redirect target, defaulting to the fixed success destination
if absent. -/
theorem c7_amended_redirect_path_holds_callback_url (cfg : Config)
    (host : String) (rnd : List Nat) (sess sess' : SessionData)
    (p : OAuthProvider) (s : String) (received : Option String)
    (tr : HttpResponse) (al : Except PyError Json) (ur : HttpResponse)
    (su : String) (tok : Json)
    (hstored : sess'.oauth_state = some s) (hs : s ≠ "") (hrecv : received = some s)
    (htok : get_token (some p) tr al = .ok tok)
    (hstatus : ur.status_code = 200) (hjson : ur.json ≠ []) :
    initiate_social_login cfg host rnd sess (some p)
      = ({ sess with
            redirect_path := some (url_for_auth_callback cfg host p)
            oauth_state := some (bytesHex rnd) },
         .ok { redirect_uri := url_for_auth_callback cfg host p
               state := bytesHex rnd }) ∧
    handle_oauth_callback (some p) sess' received tr al ur su
      = ({ sess' with
            oauth_state := none
            user_data := some ur.json
            redirect_path := none },
         .ok (sess'.redirect_path.getD su)) :=
  ⟨rfl, handle_oauth_callback_success p sess' s received tr al ur su tok
    hstored hs hrecv htok hstatus hjson⟩

/-- Claim C7, witness. Concrete instantiation: the demo `start` and a fully
successful callback on a session with a nonce but no stored
`redirect_path` (so the default success destination is used). -/
theorem c7_witness :
    initiate_social_login cfgDemo "localhost:5000" rndDemo emptySession (some .google)
      = ({ emptySession with
            redirect_path := some (url_for_auth_callback cfgDemo "localhost:5000" .google)
            oauth_state := some (bytesHex rndDemo) },
         .ok { redirect_uri := url_for_auth_callback cfgDemo "localhost:5000" .google
               state := bytesHex rndDemo }) ∧
    handle_oauth_callback (some .google)
        { emptySession with oauth_state := some "aa" } (some "aa")
        tokenOk (.ok [("access_token", "tok")]) userinfoOk "/success"
      = ({ emptySession with user_data := some userinfoOk.json }, .ok "/success") :=
  c7_amended_redirect_path_holds_callback_url cfgDemo "localhost:5000" rndDemo
    emptySession { emptySession with oauth_state := some "aa" } .google "aa"
    (some "aa") tokenOk (.ok [("access_token", "tok")]) userinfoOk "/success"
    [("access_token", "tok")] rfl (by decide) rfl rfl rfl (by decide)

/-- Claim C8. `start` renders the 16 random bytes of `os.urandom(16)` as an
opaque hex string: the `state` of the produced redirect is present (`.ok`,
and stored as `oauth_state`) and non-empty, and two `start` calls whose
random byte strings differ produce different `state` values (the hex
rendering is injective on 16-byte strings). -/
theorem c8_state_nonempty_and_fresh (cfg : Config) (host : String)
    (sess : SessionData) (p : OAuthProvider) (rnd1 rnd2 : List Nat)
    (hlen1 : rnd1.length = 16) (hbytes1 : ∀ b ∈ rnd1, b < 256)
    (hlen2 : rnd2.length = 16) (hbytes2 : ∀ b ∈ rnd2, b < 256)
    (hne : rnd1 ≠ rnd2) :
    ∃ s1 r1 s2 r2,
      initiate_social_login cfg host rnd1 sess (some p) = (s1, .ok r1) ∧
      initiate_social_login cfg host rnd2 sess (some p) = (s2, .ok r2) ∧
      s1.oauth_state = some r1.state ∧
      r1.state ≠ "" ∧ r2.state ≠ "" ∧ r1.state ≠ r2.state := by
  refine ⟨_, _, _, _, rfl, rfl, rfl, ?_, ?_, ?_⟩
  · exact bytesHex_ne_empty rnd1 (by
      intro hnil
      rw [hnil] at hlen1
      simp at hlen1)
  · exact bytesHex_ne_empty rnd2 (by
      intro hnil
      rw [hnil] at hlen2
      simp at hlen2)
  · intro heq
    exact hne (bytesHex_injective rnd1 rnd2 hbytes1 hbytes2 heq)

/-- Claim C8, witness. Two concrete 16-byte draws that differ in their first
byte yield two non-empty, distinct `state` values. -/
theorem c8_witness :
    ∃ s1 r1 s2 r2,
      initiate_social_login cfgDemo "localhost:5000" rndDemo emptySession
          (some .google) = (s1, .ok r1) ∧
      initiate_social_login cfgDemo "localhost:5000" rndDemo2 emptySession
          (some .google) = (s2, .ok r2) ∧
      s1.oauth_state = some r1.state ∧
      r1.state ≠ "" ∧ r2.state ≠ "" ∧ r1.state ≠ r2.state :=
  c8_state_nonempty_and_fresh cfgDemo "localhost:5000" emptySession .google
    rndDemo rndDemo2 (by decide) (by decide) (by decide) (by decide) (by decide)

/-- Claim C9. `logout` runs `session.clear()`: for every session state,
`user_data`, `oauth_state` and `redirect_path` are all removed, and a
subsequent profile read (the success page read `session.get("user_data")`, or
the index page read `session.get("user")`) returns empty. -/
theorem c9_logout_clears_session (sess : SessionData) :
    (logout sess).user_data = none ∧ (logout sess).oauth_state = none ∧
    (logout sess).redirect_path = none ∧ success_page (logout sess) = none ∧
    index (logout sess) = none :=
  ⟨rfl, rfl, rfl, rfl, rfl⟩

/-- Claim C10. The index page reads the session key `user`
(`session.get("user")` at auth.py line 21), which no operation of the system
ever writes — a successful callback writes the profile under `user_data`.
Hence for every reachable session state, including one produced by a fully
successful login, the index page renders with no user profile. -/
theorem c10_index_reads_unwritten_user_key (sess : SessionData)
    (h : Reachable sess) : index sess = none := by
  induction h with
  | init => rfl
  | start cfg host rnd provider s _ ih =>
    show ((initiate_social_login cfg host rnd s provider).1).user = none
    rw [initiate_social_login_user]
    exact ih
  | callback provider received tr al ur su s _ ih =>
    show ((handle_oauth_callback provider s received tr al ur su).1).user = none
    rw [handle_oauth_callback_user]
    exact ih
  | logout_step s _ _ => rfl

/-- The session after a fully successful Google login in the demo
environment (start, then a callback with matching state, a good token and a
good profile). -/
def sessAfterLogin : SessionData :=
  (handle_oauth_callback (some .google)
    (initiate_social_login cfgDemo "localhost:5000" rndDemo emptySession
      (some .google)).1
    (some (bytesHex rndDemo)) tokenOk (.ok [("access_token", "tok")])
    userinfoOk "/success").1

/-- Claim C10, witness. Even right after a fully successful login the index
page sees no profile. -/
theorem c10_witness : index sessAfterLogin = none :=
  c10_index_reads_unwritten_user_key sessAfterLogin
    (Reachable.callback (some .google) (some (bytesHex rndDemo)) tokenOk
      (.ok [("access_token", "tok")]) userinfoOk "/success" _
      (Reachable.start cfgDemo "localhost:5000" rndDemo (some .google)
        emptySession Reachable.init))

end SocialLogins
